import Mathlib

/-!
Verification development for the TinyTracer event-classification engine
(src/TinyTracer.cpp, src/FuncWatch.cpp).

Shallow embedding conventions:
* machine addresses (`ADDRINT`) are `Nat`, with explicit `% 2 ^ 64`
  truncation where the C code can overflow;
* the external instrumentation engine (module lookup `IMG_FindByAddress`,
  symbol lookup `get_func_at`) is an abstract environment `Env`;
* log output (`TraceLog`) is the list of `TraceEvent`s a handler emits;
* mutable statics (`lastShellc`, the traced-module section cursor,
  `Timer`) are threaded explicitly as state.
-/

namespace TinyTracer

/-- Modelled from the spec: `SectionRecord` / `s_module` of ProcessInfo.h
(header absent from src/): a named half-open offset range relative to the
module base. -/
structure s_module where
  name : String
  start : Nat
  stop : Nat
deriving DecidableEq, Repr

/-- The abstract environment: traced-module layout (Module/Section
Registry), the external engine's module/symbol lookup, and the session
configuration `m_FollowShellcode`.  `imgAt a = some dll` models
`IMG_Valid (IMG_FindByAddress a)` with `IMG_Name` equal to `dll`;
`imgAt a = none` models an address outside every mapped image. -/
structure Env where
  myBase : Nat
  mySize : Nat
  sections : List s_module
  imgAt : Nat → Option String
  funcAt : Nat → String
  m_FollowShellcode : Int

/-- Modelled from the spec: `pInfo.isMyAddress` (ProcessInfo.h absent from
src/): true iff the address lies within the traced module's
`[base, base+size)`. -/
def isMyAddress (e : Env) (a : Nat) : Bool :=
  decide (e.myBase ≤ a) && decide (a < e.myBase + e.mySize)

/-- Modelled from the spec: `addr_to_rva` (Util/ProcessInfo header absent
from src/): address expressed relative to the traced module's base. -/
def addr_to_rva (e : Env) (a : Nat) : Nat :=
  a - e.myBase

/-- Modelled from the spec: `pInfo.getSecByAddr` (ProcessInfo absent from
src/): linear lookup of the section covering an offset, or none. -/
def getSecByAddr (e : Env) (rva : Nat) : Option s_module :=
  e.sections.find? (fun s => decide (s.start ≤ rva) && decide (rva < s.stop))

/-- Page granularity used to group shellcode addresses into one region. -/
def PAGE_SIZE : Nat := 0x1000

/-- Sentinel for "no address": the all-ones `ADDRINT`. -/
def UNKNOWN_ADDR : Nat := 2 ^ 64 - 1

/-- Modelled from the spec: `GetPageOfAddr` (header absent from src/):
the address rounded down to page granularity. -/
def GetPageOfAddr (a : Nat) : Nat :=
  a / PAGE_SIZE * PAGE_SIZE

/-- The traced-module cursor (spec §4.1 `TracedModuleCursor`) together
with the `static ADDRINT lastShellc` of `_SaveTransitions`.  The cursor is
`none` before any execution offset has been recorded. -/
structure TraceState where
  lastShellc : Nat
  lastKnownSectionOffset : Option Nat
deriving DecidableEq, Repr

/-- Initial state: `lastShellc = UNKNOWN_ADDR`, no recorded offset. -/
def initState : TraceState :=
  { lastShellc := UNKNOWN_ADDR, lastKnownSectionOffset := none }

/-- Modelled from the spec: `pInfo.updateTracedModuleSection`
(ProcessInfo absent from src/): compares the new offset's containing
section against the recorded offset's containing section; if different,
updates the cursor and reports a boundary crossing. -/
def updateTracedModuleSection (e : Env) (cursor : Option Nat) (rva : Nat) :
    Bool × Option Nat :=
  let currSec := getSecByAddr e rva
  let prevSec := cursor.map (getSecByAddr e)
  if prevSec = some currSec then (false, cursor)
  else (true, some rva)

/-- One log record, named after the `TraceLog` call that produces it.
`logCall base addr isRVA dll func` is the resolved-module overload;
`logCallShellc base addr page target` is the unmapped-destination
overload `logCall(0, RvaFrom, lastShellc, addrTo)`. -/
inductive TraceEvent where
  | logCall (base addr : Nat) (isRVA : Bool) (dll func : String)
  | logCallShellc (base addr page target : Nat)
  | logNewSectionCalled (addr : Nat) (prevName currName : String)
  | logSectionChange (addr : Nat) (name : String)
deriving DecidableEq, Repr

/-- Is the record a call-out record (either `logCall` overload)? -/
def TraceEvent.isCallRecord : TraceEvent → Bool
  | .logCall _ _ _ _ _ => true
  | .logCallShellc _ _ _ _ => true
  | _ => false

/-- Is the record a section-change record? -/
def TraceEvent.isSectionChangeRecord : TraceEvent → Bool
  | .logSectionChange _ _ => true
  | _ => false

/-- Is the record a section-entry (`logNewSectionCalled`) record? -/
def TraceEvent.isSectionEntryRecord : TraceEvent → Bool
  | .logNewSectionCalled _ _ _ => true
  | _ => false

/-- First block of `_SaveTransitions` (TinyTracer.cpp:129-142):
"is it a transition from the traced module to a foreign module?". -/
def saveTransBlockA (e : Env) (st : TraceState) (addrFrom addrTo : Nat) :
    TraceState × List TraceEvent :=
  let isTargetMy := isMyAddress e addrTo
  let isCallerMy := isMyAddress e addrFrom
  let targetModule := e.imgAt addrTo
  let pageTo := GetPageOfAddr addrTo
  if isCallerMy && !isTargetMy then
    let RvaFrom := addr_to_rva e addrFrom
    match targetModule with
    | some dll_name =>
        (st, [TraceEvent.logCall 0 RvaFrom true dll_name (e.funcAt addrTo)])
    | none =>
        -- not in any of the mapped modules: save the beginning of this area
        ({ st with lastShellc := pageTo },
         [TraceEvent.logCallShellc 0 RvaFrom pageTo addrTo])
  else (st, [])

/-- Second block of `_SaveTransitions` (TinyTracer.cpp:143-161):
"trace calls from within the last shellcode that was called from the
traced module". -/
def saveTransBlockB (e : Env) (st : TraceState) (addrFrom addrTo : Nat) :
    TraceState × List TraceEvent :=
  let targetModule := e.imgAt addrTo
  let callerModule := e.imgAt addrFrom
  let pageFrom := GetPageOfAddr addrFrom
  let pageTo := GetPageOfAddr addrTo
  if decide (e.m_FollowShellcode ≠ 0) && callerModule.isNone then
    let callerPage := pageFrom
    if decide (callerPage ≠ UNKNOWN_ADDR) && decide (callerPage = st.lastShellc) then
      match targetModule with
      | some dll_name =>
          (st, [TraceEvent.logCall callerPage addrFrom false dll_name (e.funcAt addrTo)])
      | none =>
          if decide (pageFrom ≠ pageTo) && decide (e.m_FollowShellcode = 2) then
            -- set the called shellcode as the current:
            ({ st with lastShellc := pageTo }, [])
          else (st, [])
    else (st, [])
  else (st, [])

/-- The section name shown in log records: the covering section's name,
or `"?"` when no section covers the offset (`(sec) ? sec->name : "?"`). -/
def secName (e : Env) (rva : Nat) : String :=
  match getSecByAddr e rva with
  | some s => s.name
  | none => "?"

/-- Third block of `_SaveTransitions` (TinyTracer.cpp:163-180):
"is the address within the traced module?". -/
def saveTransBlockC (e : Env) (st : TraceState) (addrFrom addrTo : Nat) :
    TraceState × List TraceEvent :=
  let isTargetMy := isMyAddress e addrTo
  let isCallerMy := isMyAddress e addrFrom
  if isTargetMy then
    let rva := addr_to_rva e addrTo
    let upd := updateTracedModuleSection e st.lastKnownSectionOffset rva
    let st1 := { st with lastKnownSectionOffset := upd.2 }
    if upd.1 then
      let curr_name := secName e rva
      let entry :=
        if isCallerMy then
          let rvaFrom := addr_to_rva e addrFrom
          [TraceEvent.logNewSectionCalled rvaFrom (secName e rvaFrom) curr_name]
        else []
      (st1, entry ++ [TraceEvent.logSectionChange rva curr_name])
    else (st1, [])
  else (st, [])

/-- `_SaveTransitions` (TinyTracer.cpp:115-181): the three blocks run in
sequence on the shared state; emitted records are concatenated in
emission order. -/
def _SaveTransitions (e : Env) (st : TraceState) (addrFrom addrTo : Nat) :
    TraceState × List TraceEvent :=
  let rA := saveTransBlockA e st addrFrom addrTo
  let rB := saveTransBlockB e rA.1 addrFrom addrTo
  let rC := saveTransBlockC e rB.1 addrFrom addrTo
  (rC.1, rA.2 ++ rB.2 ++ rC.2)

/-- Run `_SaveTransitions` over a list of edges, collecting the state. -/
def runEdges (e : Env) (st : TraceState) : List (Nat × Nat) → TraceState
  | [] => st
  | (f, t) :: rest => runEdges e (_SaveTransitions e st f t).1 rest

/-- A small concrete session used to instantiate the theorems: traced
module at base 0x400000 with a `.text` and a `.data` section, one foreign
module `kernel32.dll`, recursive shellcode following enabled. -/
def testEnv : Env where
  myBase := 0x400000
  mySize := 0x2000
  sections := [⟨".text", 0, 0x1000⟩, ⟨".data", 0x1000, 0x2000⟩]
  imgAt := fun a =>
    if 0x400000 ≤ a ∧ a < 0x402000 then some "app.exe"
    else if 0x7ff00000 ≤ a ∧ a < 0x7ff10000 then some "kernel32.dll"
    else none
  funcAt := fun a => if a = 0x7ff00500 then "CreateFileW" else "?"
  m_FollowShellcode := 2

/- Helper lemmas about the three blocks. -/

/-- Blocks A and B never touch the section cursor. -/
theorem blockAB_cursor_eq (e : Env) (st : TraceState) (f t : Nat) :
    (saveTransBlockA e st f t).1.lastKnownSectionOffset = st.lastKnownSectionOffset ∧
    (saveTransBlockB e st f t).1.lastKnownSectionOffset = st.lastKnownSectionOffset := by
  constructor
  · unfold saveTransBlockA
    dsimp only
    split
    · split <;> rfl
    · rfl
  · unfold saveTransBlockB
    dsimp only
    split
    · split
      · split
        · rfl
        · split <;> rfl
      · rfl
    · rfl

/-- Block A emits no section-change and no section-entry records. -/
theorem blockA_no_section_records (e : Env) (st : TraceState) (f t : Nat) :
    (saveTransBlockA e st f t).2.countP (fun ev => ev.isSectionChangeRecord) = 0 ∧
    (saveTransBlockA e st f t).2.countP (fun ev => ev.isSectionEntryRecord) = 0 := by
  unfold saveTransBlockA
  dsimp only
  split
  · split <;>
      simp [List.countP_cons, TraceEvent.isSectionChangeRecord,
        TraceEvent.isSectionEntryRecord]
  · simp

/-- Block B emits no section-change and no section-entry records. -/
theorem blockB_no_section_records (e : Env) (st : TraceState) (f t : Nat) :
    (saveTransBlockB e st f t).2.countP (fun ev => ev.isSectionChangeRecord) = 0 ∧
    (saveTransBlockB e st f t).2.countP (fun ev => ev.isSectionEntryRecord) = 0 := by
  unfold saveTransBlockB
  dsimp only
  split
  · split
    · split
      · simp [List.countP_cons, TraceEvent.isSectionChangeRecord,
          TraceEvent.isSectionEntryRecord]
      · split <;> simp
    · simp
  · simp

/-- Claim C1: for an edge with `fromTraced && !toTraced` whose destination
resolves to a known module image, `_SaveTransitions` emits exactly the one
call-out record (origin = RVA of the source address, target module and
symbol, via the resolved-module overload), and no section-change record.
The hypothesis `hCaller` records that the traced module itself is a mapped
image, so an address inside it is found by the engine's module lookup. -/
theorem claim_C1 (e : Env) (st : TraceState) (addrFrom addrTo : Nat) (dll : String)
    (hFrom : isMyAddress e addrFrom = true)
    (hTo : isMyAddress e addrTo = false)
    (hImg : e.imgAt addrTo = some dll)
    (hCaller : (e.imgAt addrFrom).isSome = true) :
    (_SaveTransitions e st addrFrom addrTo).2 =
      [TraceEvent.logCall 0 (addr_to_rva e addrFrom) true dll (e.funcAt addrTo)] ∧
    (_SaveTransitions e st addrFrom addrTo).2.countP
      (fun ev => ev.isCallRecord) = 1 ∧
    (_SaveTransitions e st addrFrom addrTo).2.countP
      (fun ev => ev.isSectionChangeRecord) = 0 := by
  obtain ⟨w, hw⟩ := Option.isSome_iff_exists.mp hCaller
  have hA : saveTransBlockA e st addrFrom addrTo =
      (st, [TraceEvent.logCall 0 (addr_to_rva e addrFrom) true dll (e.funcAt addrTo)]) := by
    simp [saveTransBlockA, hFrom, hTo, hImg]
  have hB : saveTransBlockB e st addrFrom addrTo = (st, []) := by
    simp [saveTransBlockB, hw]
  have hC : saveTransBlockC e st addrFrom addrTo = (st, []) := by
    simp [saveTransBlockC, hTo]
  refine ⟨?_, ?_, ?_⟩ <;>
    simp [_SaveTransitions, hA, hB, hC, List.countP_cons,
      TraceEvent.isCallRecord, TraceEvent.isSectionChangeRecord]

/-- Witness for C1 at a concrete edge of `testEnv`. -/
theorem claim_C1_witness :
    (_SaveTransitions testEnv initState 0x400500 0x7ff00500).2 =
      [TraceEvent.logCall 0 0x500 true "kernel32.dll" "CreateFileW"] :=
  (claim_C1 testEnv initState 0x400500 0x7ff00500 "kernel32.dll"
    (by decide) (by decide) (by decide) (by decide)).1

/-- A state whose section cursor already records offset 0x500 (inside
`.text` of `testEnv`). -/
def testCursorState : TraceState :=
  { lastShellc := UNKNOWN_ADDR, lastKnownSectionOffset := some 0x500 }

/-- Claim C2: for an edge arriving inside the traced module whose offset
lies in a different section than the recorded cursor offset, exactly one
section-change record is emitted; if the origin is also traced, exactly
one section-entry record is emitted, directly before the section-change
record; section names fall back to `"?"` (via `secName`). -/
theorem claim_C2 (e : Env) (st : TraceState) (addrFrom addrTo prevOff : Nat)
    (hTo : isMyAddress e addrTo = true)
    (hCur : st.lastKnownSectionOffset = some prevOff)
    (hDiff : getSecByAddr e prevOff ≠ getSecByAddr e (addr_to_rva e addrTo)) :
    (_SaveTransitions e st addrFrom addrTo).2.countP
      (fun ev => ev.isSectionChangeRecord) = 1 ∧
    (isMyAddress e addrFrom = true →
      (_SaveTransitions e st addrFrom addrTo).2.countP
        (fun ev => ev.isSectionEntryRecord) = 1 ∧
      ∃ pre,
        (_SaveTransitions e st addrFrom addrTo).2 =
          pre ++
            [TraceEvent.logNewSectionCalled (addr_to_rva e addrFrom)
               (secName e (addr_to_rva e addrFrom)) (secName e (addr_to_rva e addrTo)),
             TraceEvent.logSectionChange (addr_to_rva e addrTo)
               (secName e (addr_to_rva e addrTo))] ∧
        pre.countP (fun ev => ev.isSectionChangeRecord) = 0 ∧
        pre.countP (fun ev => ev.isSectionEntryRecord) = 0) ∧
    (isMyAddress e addrFrom = false →
      (_SaveTransitions e st addrFrom addrTo).2.countP
        (fun ev => ev.isSectionEntryRecord) = 0) := by
  have hcurA : (saveTransBlockA e st addrFrom addrTo).1.lastKnownSectionOffset
      = some prevOff := by
    rw [(blockAB_cursor_eq e st addrFrom addrTo).1, hCur]
  have hcurB : (saveTransBlockB e (saveTransBlockA e st addrFrom addrTo).1
      addrFrom addrTo).1.lastKnownSectionOffset = some prevOff := by
    rw [(blockAB_cursor_eq e (saveTransBlockA e st addrFrom addrTo).1 addrFrom addrTo).2,
      hcurA]
  have hupd : updateTracedModuleSection e (some prevOff) (addr_to_rva e addrTo) =
      (true, some (addr_to_rva e addrTo)) := by
    simp [updateTracedModuleSection, hDiff]
  have hsplit : (_SaveTransitions e st addrFrom addrTo).2 =
      (saveTransBlockA e st addrFrom addrTo).2 ++
        (saveTransBlockB e (saveTransBlockA e st addrFrom addrTo).1 addrFrom addrTo).2 ++
        (saveTransBlockC e (saveTransBlockB e (saveTransBlockA e st addrFrom addrTo).1
          addrFrom addrTo).1 addrFrom addrTo).2 := rfl
  have hA0 := blockA_no_section_records e st addrFrom addrTo
  have hB0 := blockB_no_section_records e (saveTransBlockA e st addrFrom addrTo).1
    addrFrom addrTo
  cases hFrom : isMyAddress e addrFrom
  case false =>
    have hC : (saveTransBlockC e (saveTransBlockB e (saveTransBlockA e st addrFrom
        addrTo).1 addrFrom addrTo).1 addrFrom addrTo).2 =
        [TraceEvent.logSectionChange (addr_to_rva e addrTo)
          (secName e (addr_to_rva e addrTo))] := by
      simp [saveTransBlockC, hTo, hFrom, hcurB, hupd]
    refine ⟨?_, fun hcontra => by simp [hFrom] at hcontra, fun _ => ?_⟩
    · rw [hsplit, List.countP_append, List.countP_append, hC, hA0.1, hB0.1]
      simp [List.countP_cons, TraceEvent.isSectionChangeRecord]
    · rw [hsplit, List.countP_append, List.countP_append, hC, hA0.2, hB0.2]
      simp [List.countP_cons, TraceEvent.isSectionEntryRecord]
  case true =>
    have hC : (saveTransBlockC e (saveTransBlockB e (saveTransBlockA e st addrFrom
        addrTo).1 addrFrom addrTo).1 addrFrom addrTo).2 =
        [TraceEvent.logNewSectionCalled (addr_to_rva e addrFrom)
           (secName e (addr_to_rva e addrFrom)) (secName e (addr_to_rva e addrTo)),
         TraceEvent.logSectionChange (addr_to_rva e addrTo)
           (secName e (addr_to_rva e addrTo))] := by
      simp [saveTransBlockC, hTo, hFrom, hcurB, hupd]
    refine ⟨?_, fun _ => ⟨?_, ?_⟩, fun hcontra => by simp [hFrom] at hcontra⟩
    · rw [hsplit, List.countP_append, List.countP_append, hC, hA0.1, hB0.1]
      simp [List.countP_cons, TraceEvent.isSectionChangeRecord]
    · rw [hsplit, List.countP_append, List.countP_append, hC, hA0.2, hB0.2]
      simp [List.countP_cons, TraceEvent.isSectionEntryRecord]
    · refine ⟨(saveTransBlockA e st addrFrom addrTo).2 ++
        (saveTransBlockB e (saveTransBlockA e st addrFrom addrTo).1 addrFrom addrTo).2,
        ?_, ?_, ?_⟩
      · rw [hsplit, hC, List.append_assoc]
      · rw [List.countP_append, hA0.1, hB0.1]
      · rw [List.countP_append, hA0.2, hB0.2]

/-- Witness for C2: the spec's end-to-end example, an edge from RVA 0x500
(`.text`) to RVA 0x1200 (`.data`) in `testEnv`. -/
theorem claim_C2_witness :
    (_SaveTransitions testEnv testCursorState 0x400500 0x401200).2.countP
      (fun ev => ev.isSectionChangeRecord) = 1 ∧
    (_SaveTransitions testEnv testCursorState 0x400500 0x401200).2.countP
      (fun ev => ev.isSectionEntryRecord) = 1 :=
  ⟨(claim_C2 testEnv testCursorState 0x400500 0x401200 0x500
      (by decide) (by decide) (by decide)).1,
   ((claim_C2 testEnv testCursorState 0x400500 0x401200 0x500
      (by decide) (by decide) (by decide)).2.1 (by decide)).1⟩

/-- `_SaveTransitions` output is the concatenation of the three blocks'
outputs, threaded through the state. -/
theorem saveTransitions_out_eq (e : Env) (st : TraceState) (f t : Nat) :
    (_SaveTransitions e st f t).2 =
      (saveTransBlockA e st f t).2 ++
        (saveTransBlockB e (saveTransBlockA e st f t).1 f t).2 ++
        (saveTransBlockC e (saveTransBlockB e (saveTransBlockA e st f t).1 f t).1
          f t).2 := rfl

/-- Block A changes `lastShellc` only in its destination-unmapped branch,
and then to the page of the destination. -/
theorem blockA_lastShellc_cases (e : Env) (st : TraceState) (f t : Nat) :
    (saveTransBlockA e st f t).1.lastShellc = st.lastShellc ∨
    (isMyAddress e f = true ∧ isMyAddress e t = false ∧ e.imgAt t = none ∧
     (saveTransBlockA e st f t).1.lastShellc = GetPageOfAddr t) := by
  unfold saveTransBlockA
  dsimp only
  split
  · rename_i hcond
    split
    · exact Or.inl rfl
    · rename_i hnone
      simp only [Bool.and_eq_true, Bool.not_eq_true'] at hcond
      exact Or.inr ⟨hcond.1, hcond.2, hnone, rfl⟩
  · exact Or.inl rfl

/-- Block B changes `lastShellc` only in its recursive-hop branch, and
then to the page of the destination. -/
theorem blockB_lastShellc_cases (e : Env) (st : TraceState) (f t : Nat) :
    (saveTransBlockB e st f t).1.lastShellc = st.lastShellc ∨
    (e.m_FollowShellcode = 2 ∧ e.imgAt f = none ∧ e.imgAt t = none ∧
     GetPageOfAddr f ≠ UNKNOWN_ADDR ∧ GetPageOfAddr f = st.lastShellc ∧
     GetPageOfAddr f ≠ GetPageOfAddr t ∧
     (saveTransBlockB e st f t).1.lastShellc = GetPageOfAddr t) := by
  unfold saveTransBlockB
  dsimp only
  split
  · rename_i hcond1
    split
    · rename_i hcond2
      split
      · exact Or.inl rfl
      · rename_i hnone
        split
        · rename_i hcond3
          simp only [Bool.and_eq_true, decide_eq_true_eq,
            Option.isNone_iff_eq_none] at hcond1 hcond2 hcond3
          exact Or.inr ⟨hcond3.2, hcond1.2, hnone, hcond2.1, hcond2.2,
            hcond3.1, rfl⟩
        · exact Or.inl rfl
    · exact Or.inl rfl
  · exact Or.inl rfl

/-- Block C never changes `lastShellc`. -/
theorem blockC_lastShellc (e : Env) (st : TraceState) (f t : Nat) :
    (saveTransBlockC e st f t).1.lastShellc = st.lastShellc := by
  unfold saveTransBlockC
  dsimp only
  split
  · split <;> rfl
  · rfl

/-- One `_SaveTransitions` step either preserves `lastShellc` or assigns
it the destination page, and only via Case A's destination-unmapped
branch or Case B's recursive-hop branch. -/
theorem lastShellc_step (e : Env) (st : TraceState) (f t : Nat) :
    (_SaveTransitions e st f t).1.lastShellc = st.lastShellc ∨
    (e.imgAt t = none ∧
     (_SaveTransitions e st f t).1.lastShellc = GetPageOfAddr t ∧
     ((isMyAddress e f = true ∧ isMyAddress e t = false) ∨
      (e.m_FollowShellcode = 2 ∧ e.imgAt f = none ∧
       GetPageOfAddr f ≠ UNKNOWN_ADDR ∧ GetPageOfAddr f = st.lastShellc ∧
       GetPageOfAddr f ≠ GetPageOfAddr t))) := by
  have hfinal : (_SaveTransitions e st f t).1.lastShellc =
      (saveTransBlockB e (saveTransBlockA e st f t).1 f t).1.lastShellc :=
    blockC_lastShellc e (saveTransBlockB e (saveTransBlockA e st f t).1 f t).1 f t
  rcases blockA_lastShellc_cases e st f t with hA | hA
  · rcases blockB_lastShellc_cases e (saveTransBlockA e st f t).1 f t with hB | hB
    · left
      rw [hfinal, hB, hA]
    · refine Or.inr ⟨hB.2.2.1, ?_, Or.inr ⟨hB.1, hB.2.1, hB.2.2.2.1,
        hB.2.2.2.2.1.trans hA, hB.2.2.2.2.2.1⟩⟩
      rw [hfinal]
      exact hB.2.2.2.2.2.2
  · rcases blockB_lastShellc_cases e (saveTransBlockA e st f t).1 f t with hB | hB
    · refine Or.inr ⟨hA.2.2.1, ?_, Or.inl ⟨hA.1, hA.2.1⟩⟩
      rw [hfinal, hB]
      exact hA.2.2.2
    · exact absurd (hB.2.2.2.2.1.trans hA.2.2.2) hB.2.2.2.2.2.1

/-- Over any edge list, `lastShellc` is either still its starting value or
the page of some unmapped destination that occurs in the list. -/
theorem runEdges_lastShellc (e : Env) (edges : List (Nat × Nat)) :
    ∀ st : TraceState,
      (runEdges e st edges).lastShellc = st.lastShellc ∨
      ∃ p ∈ edges, e.imgAt p.2 = none ∧
        (runEdges e st edges).lastShellc = GetPageOfAddr p.2 := by
  induction edges with
  | nil => exact fun st => Or.inl rfl
  | cons hd rest ih =>
      intro st
      obtain ⟨f, t⟩ := hd
      rcases ih (_SaveTransitions e st f t).1 with hrec | ⟨p, hp, hnone, hval⟩
      · rcases lastShellc_step e st f t with hstep | hstep
        · left
          show (runEdges e (_SaveTransitions e st f t).1 rest).lastShellc =
            st.lastShellc
          rw [hrec, hstep]
        · refine Or.inr ⟨(f, t), List.mem_cons_self _ _, hstep.1, ?_⟩
          show (runEdges e (_SaveTransitions e st f t).1 rest).lastShellc =
            GetPageOfAddr t
          rw [hrec]
          exact hstep.2.1
      · exact Or.inr ⟨p, List.mem_cons_of_mem _ hp, hnone, hval⟩

/-- Claim C3: starting from the initial state, `lastShellc` is the
sentinel `UNKNOWN_ADDR` until first assigned, and at any reachable state
it is the page of an unmapped destination of some processed edge; a
single step assigns it only through Case A's destination-unmapped branch
or Case B's recursive-hop branch (under recursive follow mode), always to
the single page of the edge's destination. -/
theorem claim_C3 (e : Env) (edges : List (Nat × Nat)) :
    ((runEdges e initState edges).lastShellc = UNKNOWN_ADDR ∨
      ∃ p ∈ edges, e.imgAt p.2 = none ∧
        (runEdges e initState edges).lastShellc = GetPageOfAddr p.2) ∧
    (∀ st f t,
      (_SaveTransitions e st f t).1.lastShellc = st.lastShellc ∨
      (e.imgAt t = none ∧
       (_SaveTransitions e st f t).1.lastShellc = GetPageOfAddr t ∧
       ((isMyAddress e f = true ∧ isMyAddress e t = false) ∨
        (e.m_FollowShellcode = 2 ∧ e.imgAt f = none ∧
         GetPageOfAddr f ≠ UNKNOWN_ADDR ∧ GetPageOfAddr f = st.lastShellc ∧
         GetPageOfAddr f ≠ GetPageOfAddr t)))) := by
  constructor
  · rcases runEdges_lastShellc e edges initState with h | h
    · exact Or.inl h
    · exact Or.inr h
  · exact fun st f t => lastShellc_step e st f t

/-- For a traced→foreign edge with a mapped caller, `_SaveTransitions`
emits exactly one call record and no section-change record, for any
starting state. -/
theorem out_of_module_call_count (e : Env) (st : TraceState) (f t : Nat)
    (hFrom : isMyAddress e f = true) (hTo : isMyAddress e t = false)
    (hCaller : (e.imgAt f).isSome = true) :
    (_SaveTransitions e st f t).2.countP (fun ev => ev.isCallRecord) = 1 ∧
    (_SaveTransitions e st f t).2.countP
      (fun ev => ev.isSectionChangeRecord) = 0 := by
  obtain ⟨w, hw⟩ := Option.isSome_iff_exists.mp hCaller
  have hB : saveTransBlockB e (saveTransBlockA e st f t).1 f t =
      ((saveTransBlockA e st f t).1, []) := by
    simp [saveTransBlockB, hw]
  have hC : saveTransBlockC e (saveTransBlockA e st f t).1 f t =
      ((saveTransBlockA e st f t).1, []) := by
    simp [saveTransBlockC, hTo]
  have hout : (_SaveTransitions e st f t).2 = (saveTransBlockA e st f t).2 := by
    simp [_SaveTransitions, hB, hC]
  cases himg : e.imgAt t with
  | some dll =>
      have hA : (saveTransBlockA e st f t).2 =
          [TraceEvent.logCall 0 (addr_to_rva e f) true dll (e.funcAt t)] := by
        simp [saveTransBlockA, hFrom, hTo, himg]
      rw [hout, hA]
      constructor <;> simp [List.countP_cons, TraceEvent.isCallRecord,
        TraceEvent.isSectionChangeRecord]
  | none =>
      have hA : (saveTransBlockA e st f t).2 =
          [TraceEvent.logCallShellc 0 (addr_to_rva e f) (GetPageOfAddr t) t] := by
        simp [saveTransBlockA, hFrom, hTo, himg]
      rw [hout, hA]
      constructor <;> simp [List.countP_cons, TraceEvent.isCallRecord,
        TraceEvent.isSectionChangeRecord]

/-- A boundary-crossing arrival emits exactly one section-change record
and leaves the cursor at the new offset. -/
theorem section_cross_counts (e : Env) (st : TraceState) (f t prevOff : Nat)
    (hTo : isMyAddress e t = true)
    (hCur : st.lastKnownSectionOffset = some prevOff)
    (hDiff : getSecByAddr e prevOff ≠ getSecByAddr e (addr_to_rva e t)) :
    (_SaveTransitions e st f t).2.countP
      (fun ev => ev.isSectionChangeRecord) = 1 ∧
    (_SaveTransitions e st f t).1.lastKnownSectionOffset =
      some (addr_to_rva e t) := by
  have hcurA : (saveTransBlockA e st f t).1.lastKnownSectionOffset = some prevOff := by
    rw [(blockAB_cursor_eq e st f t).1, hCur]
  have hcurB : (saveTransBlockB e (saveTransBlockA e st f t).1 f
      t).1.lastKnownSectionOffset = some prevOff := by
    rw [(blockAB_cursor_eq e (saveTransBlockA e st f t).1 f t).2, hcurA]
  have hupd : updateTracedModuleSection e (some prevOff) (addr_to_rva e t) =
      (true, some (addr_to_rva e t)) := by
    simp [updateTracedModuleSection, hDiff]
  have hA0 := blockA_no_section_records e st f t
  have hB0 := blockB_no_section_records e (saveTransBlockA e st f t).1 f t
  cases hFrom : isMyAddress e f with
  | false =>
      have hCfull : saveTransBlockC e (saveTransBlockB e (saveTransBlockA e st f
          t).1 f t).1 f t =
          ({ (saveTransBlockB e (saveTransBlockA e st f t).1 f t).1 with
              lastKnownSectionOffset := some (addr_to_rva e t) },
           [TraceEvent.logSectionChange (addr_to_rva e t)
              (secName e (addr_to_rva e t))]) := by
        simp [saveTransBlockC, hTo, hFrom, hcurB, hupd]
      constructor
      · rw [saveTransitions_out_eq, List.countP_append, List.countP_append,
          hA0.1, hB0.1, hCfull]
        simp [List.countP_cons, TraceEvent.isSectionChangeRecord]
      · show (saveTransBlockC e (saveTransBlockB e (saveTransBlockA e st f t).1
          f t).1 f t).1.lastKnownSectionOffset = some (addr_to_rva e t)
        rw [hCfull]
  | true =>
      have hCfull : saveTransBlockC e (saveTransBlockB e (saveTransBlockA e st f
          t).1 f t).1 f t =
          ({ (saveTransBlockB e (saveTransBlockA e st f t).1 f t).1 with
              lastKnownSectionOffset := some (addr_to_rva e t) },
           [TraceEvent.logNewSectionCalled (addr_to_rva e f)
              (secName e (addr_to_rva e f)) (secName e (addr_to_rva e t)),
            TraceEvent.logSectionChange (addr_to_rva e t)
              (secName e (addr_to_rva e t))]) := by
        simp [saveTransBlockC, hTo, hFrom, hcurB, hupd]
      constructor
      · rw [saveTransitions_out_eq, List.countP_append, List.countP_append,
          hA0.1, hB0.1, hCfull]
        simp [List.countP_cons, TraceEvent.isSectionChangeRecord,
          TraceEvent.isSectionEntryRecord]
      · show (saveTransBlockC e (saveTransBlockB e (saveTransBlockA e st f t).1
          f t).1 f t).1.lastKnownSectionOffset = some (addr_to_rva e t)
        rw [hCfull]

/-- When the cursor already records the arrival offset, no section-change
record is emitted (the arrival is not a boundary crossing). -/
theorem no_crossing_no_section (e : Env) (st : TraceState) (f t : Nat)
    (hCur : st.lastKnownSectionOffset = some (addr_to_rva e t)) :
    (_SaveTransitions e st f t).2.countP
      (fun ev => ev.isSectionChangeRecord) = 0 := by
  have hcurB : (saveTransBlockB e (saveTransBlockA e st f t).1 f
      t).1.lastKnownSectionOffset = some (addr_to_rva e t) := by
    rw [(blockAB_cursor_eq e (saveTransBlockA e st f t).1 f t).2,
      (blockAB_cursor_eq e st f t).1, hCur]
  have hupd : updateTracedModuleSection e (some (addr_to_rva e t))
      (addr_to_rva e t) = (false, some (addr_to_rva e t)) := by
    simp [updateTracedModuleSection]
  have hA0 := blockA_no_section_records e st f t
  have hB0 := blockB_no_section_records e (saveTransBlockA e st f t).1 f t
  have hC : (saveTransBlockC e (saveTransBlockB e (saveTransBlockA e st f t).1
      f t).1 f t).2 = [] := by
    cases hTo : isMyAddress e t with
    | false => simp [saveTransBlockC, hTo]
    | true => simp [saveTransBlockC, hTo, hcurB, hupd]
  rw [saveTransitions_out_eq, List.countP_append, List.countP_append,
    hA0.1, hB0.1, hC]
  simp

/-- Claim C4: replaying an identical traced→foreign edge with a mapped
caller emits a call-out record on both occasions (no deduplication),
while replaying an identical boundary-crossing arrival emits its
section-change record only the first time: the first processing moves the
cursor, so the second arrival is no longer a crossing. -/
theorem claim_C4 (e : Env) (st : TraceState) (f t : Nat) :
    (isMyAddress e f = true → isMyAddress e t = false →
      (e.imgAt f).isSome = true →
      (_SaveTransitions e st f t).2.countP (fun ev => ev.isCallRecord) = 1 ∧
      (_SaveTransitions e (_SaveTransitions e st f t).1 f t).2.countP
        (fun ev => ev.isCallRecord) = 1) ∧
    (∀ prevOff, isMyAddress e t = true →
      st.lastKnownSectionOffset = some prevOff →
      getSecByAddr e prevOff ≠ getSecByAddr e (addr_to_rva e t) →
      (_SaveTransitions e st f t).2.countP
        (fun ev => ev.isSectionChangeRecord) = 1 ∧
      (_SaveTransitions e (_SaveTransitions e st f t).1 f t).2.countP
        (fun ev => ev.isSectionChangeRecord) = 0) := by
  constructor
  · intro hFrom hTo hCaller
    exact ⟨(out_of_module_call_count e st f t hFrom hTo hCaller).1,
      (out_of_module_call_count e (_SaveTransitions e st f t).1 f t hFrom hTo
        hCaller).1⟩
  · intro prevOff hTo hCur hDiff
    obtain ⟨h1, hcur1⟩ := section_cross_counts e st f t prevOff hTo hCur hDiff
    exact ⟨h1, no_crossing_no_section e (_SaveTransitions e st f t).1 f t hcur1⟩

/-- Witness for C4 at concrete edges of `testEnv`: the call-out edge
replayed twice keeps logging; the section-crossing edge logs a change
only the first time. -/
theorem claim_C4_witness :
    ((_SaveTransitions testEnv initState 0x400500 0x7ff00500).2.countP
       (fun ev => ev.isCallRecord) = 1 ∧
     (_SaveTransitions testEnv
        (_SaveTransitions testEnv initState 0x400500 0x7ff00500).1
        0x400500 0x7ff00500).2.countP (fun ev => ev.isCallRecord) = 1) ∧
    ((_SaveTransitions testEnv testCursorState 0x400500 0x401200).2.countP
       (fun ev => ev.isSectionChangeRecord) = 1 ∧
     (_SaveTransitions testEnv
        (_SaveTransitions testEnv testCursorState 0x400500 0x401200).1
        0x400500 0x401200).2.countP
       (fun ev => ev.isSectionChangeRecord) = 0) :=
  ⟨(claim_C4 testEnv initState 0x400500 0x7ff00500).1
      (by decide) (by decide) (by decide),
   (claim_C4 testEnv testCursorState 0x400500 0x401200).2 0x500
      (by decide) (by decide) (by decide)⟩

/-! ### Probe firing guard (`isWatchedAddress`, `_LogFunctionArgs`) -/

/-- Modelled from the spec: a printable single-byte character (ASCII
printable range), the predicate behind `util::getAsciiLen` (Util.h absent
from src/). -/
def isPrintableByte (c : Nat) : Bool :=
  decide (32 ≤ c) && decide (c < 127)

/-- Modelled from the spec: `util::getAsciiLen` (Util.h absent from
src/): length of the maximal leading run of printable single-byte
characters, capped at `maxLen`. -/
def getAsciiLen (bytes : List Nat) (maxLen : Nat) : Nat :=
  ((bytes.take maxLen).takeWhile (fun c => isPrintableByte c)).length

/-- Little-endian 16-bit code units of a byte sequence (the
`(wchar_t*)arg1` reinterpretation). -/
def toWideUnits : List Nat → List Nat
  | b0 :: b1 :: rest => (b0 + 256 * b1) :: toWideUnits rest
  | _ => []

/-- Modelled from the spec: `util::getAsciiLenW` (Util.h absent from
src/): the analogous leading printable run over 16-bit code units. -/
def getAsciiLenW (bytes : List Nat) (maxLen : Nat) : Nat :=
  (((toWideUnits bytes).take maxLen).takeWhile (fun u => isPrintableByte u)).length

/-- Hexadecimal rendering of a scalar (`ss << std::hex << arg1`). -/
def hexStr (n : Nat) : String :=
  String.mk (Nat.toDigits 16 n)

/-- The characters streamed for a NUL-terminated single-byte string. -/
def asciiString (bytes : List Nat) : String :=
  String.mk ((bytes.takeWhile (fun c => decide (c ≠ 0))).map (fun c => Char.ofNat c))

/-- The characters streamed for a NUL-terminated wide string. -/
def wideString (bytes : List Nat) : String :=
  String.mk (((toWideUnits bytes).takeWhile (fun u => decide (u ≠ 0))).map
    (fun u => Char.ofNat u))

/-- A captured argument cell: the raw pointer-sized value, whether the
address is readable in the target (`PIN_CheckReadAccess`), and the bytes
readable at it. -/
structure ParamVal where
  value : Nat
  readable : Bool
  bytes : List Nat
deriving Repr

/-- The 300-byte scan cap of `paramToStr`. -/
def kMaxStr : Nat := 300

/-- `paramToStr` (TinyTracer.cpp:302-337): heuristic typing of a captured
argument. -/
def paramToStr (arg1 : ParamVal) : String :=
  if arg1.value = 0 then "0"
  else if !arg1.readable then hexStr arg1.value
  else
    let len := getAsciiLen arg1.bytes kMaxStr
    if len = 1 then
      -- possible wideString
      if getAsciiLenW arg1.bytes kMaxStr ≥ len then
        "L\"" ++ wideString arg1.bytes ++ "\""
      else "ptr " ++ hexStr arg1.value
    else if len > 1 then
      -- ASCII string
      "\"" ++ asciiString arg1.bytes ++ "\""
    else
      -- none of the above, possible pointer to some structure
      "ptr " ++ hexStr arg1.value

/-- `isWatchedAddress` (TinyTracer.cpp:285-300).  Note: the source checks
only that the address is unmapped with a valid page; it does not compare
the page against `lastShellc` (which is a local static of
`_SaveTransitions` and not even visible here). -/
def isWatchedAddress (e : Env) (Address : Nat) : Bool :=
  let currModule := e.imgAt Address
  let isCurrMy := isMyAddress e Address
  if isCurrMy then true
  else if decide (e.m_FollowShellcode ≠ 0) && currModule.isNone then
    -- the source also computes an unused rva = Address - start here
    if decide (GetPageOfAddr Address ≠ UNKNOWN_ADDR) then true else false
  else false

/-- Bound `argsMax` of `_LogFunctionArgs`. -/
def argsMax : Nat := 10

/-- `_LogFunctionArgs` (TinyTracer.cpp:339-355): `none` when the guard
suppresses the dump, otherwise the classified argument lines. -/
def _LogFunctionArgs (e : Env) (Address : Nat) (argCount : Nat)
    (args : List ParamVal) : Option (List String) :=
  if !isWatchedAddress e Address then none
  else some ((args.take (min argCount argsMax)).map (fun a => paramToStr a))

/-- The firing predicate exactly as claim C5 states it (for comparison
with the code's `isWatchedAddress`): inside the traced module, or — with
follow mode enabled — inside the currently followed shellcode region
`lastShellc`. -/
def claimedWatchedGuard (e : Env) (lastShellc : Nat) (Address : Nat) : Bool :=
  isMyAddress e Address ||
    (decide (e.m_FollowShellcode ≠ 0) &&
      decide (GetPageOfAddr Address = lastShellc))

/-- Counterexample to C5 as stated: in `testEnv` (follow mode on, no
shellcode followed yet: `lastShellc = UNKNOWN_ADDR`), a call from the
unmapped address 0x500000 — whose page does not equal
`currentShellcodePage` — still produces an argument dump. -/
theorem claim_C5_counterexample :
    (_LogFunctionArgs testEnv 0x500000 1 []).isSome = true ∧
    claimedWatchedGuard testEnv initState.lastShellc 0x500000 = false ∧
    isMyAddress testEnv 0x500000 = false := by decide

/-- The source guard `isWatchedAddress` unfolded: inside the traced
module, or follow mode on and the address unmapped with a valid page. -/
theorem isWatchedAddress_iff (e : Env) (Address : Nat) :
    isWatchedAddress e Address = true ↔
      (isMyAddress e Address = true ∨
       (e.m_FollowShellcode ≠ 0 ∧ e.imgAt Address = none ∧
        GetPageOfAddr Address ≠ UNKNOWN_ADDR)) := by
  unfold isWatchedAddress
  dsimp only
  cases hmy : isMyAddress e Address
  case true => simp
  case false =>
    cases himg : e.imgAt Address
    case some dll => simp [himg]
    case none =>
      by_cases hf : e.m_FollowShellcode = 0
      case pos => simp [himg, hf]
      case neg =>
        by_cases hpg : GetPageOfAddr Address = UNKNOWN_ADDR
        case pos => simp [himg, hf, hpg]
        case neg => simp [himg, hf, hpg]

/-- Claim C5 (amended): the argument dump fires iff the call-site address
is inside the traced module, or follow mode is enabled and the address
lies in unmapped memory with a valid page — with no comparison against
`currentShellcodePage`. -/
theorem claim_C5 (e : Env) (Address argCount : Nat) (args : List ParamVal) :
    (_LogFunctionArgs e Address argCount args).isSome = true ↔
      (isMyAddress e Address = true ∨
       (e.m_FollowShellcode ≠ 0 ∧ e.imgAt Address = none ∧
        GetPageOfAddr Address ≠ UNKNOWN_ADDR)) := by
  have hfire : (_LogFunctionArgs e Address argCount args).isSome =
      isWatchedAddress e Address := by
    unfold _LogFunctionArgs
    cases hwatch : isWatchedAddress e Address <;> simp
  rw [hfire]
  exact isWatchedAddress_iff e Address

/-! ### Timer spoofer (`_setTimer`) -/

/-- `_setTimer` (TinyTracer.cpp:236-257): one update of the static 64-bit
`Timer`.  `edx`/`eax` are the captured register values; the result pair
is (new `Timer`, value delivered to the queried result register). -/
def _setTimer (Timer edx eax : Nat) (isEax : Bool) : Nat × Nat :=
  let Timer1 :=
    if Timer = 0 then ((edx <<< 32) ||| eax) % 2 ^ 64
    else (Timer + 100) % 2 ^ 64
  let result :=
    if isEax then ((Timer1 <<< 32) % 2 ^ 64) >>> 32
    else Timer1 >>> 32
  (Timer1, result)

/-- One spoofed `rdtsc` instruction (`InstrumentInstruction`,
TinyTracer.cpp:411-435): PIN runs the EDX-altering call first, then the
EAX-altering call, both against the shared static `Timer`.  Result:
(new timer, delivered edx, delivered eax). -/
def spoofedRdtsc (Timer edx eax : Nat) : Nat × Nat × Nat :=
  let rEdx := _setTimer Timer edx eax false
  let rEax := _setTimer rEdx.1 edx eax true
  (rEax.1, rEdx.2, rEax.2)

/-- Truncated low half: `(x << 32) >> 32` on a 64-bit word is `x mod 2^32`. -/
theorem low32_eq (x : Nat) : ((x <<< 32) % 2 ^ 64) >>> 32 = x % 2 ^ 32 := by
  rw [Nat.shiftLeft_eq, Nat.shiftRight_eq_div_pow]
  have h : (2 : Nat) ^ 64 = 2 ^ 32 * 2 ^ 32 := by norm_num
  rw [h, Nat.mul_mod_mul_right]
  exact Nat.mul_div_cancel _ (by positivity)

/-- A `_setTimer` call for EDX with a nonzero, non-overflowing counter
adds exactly 100 and returns the high half. -/
theorem setTimer_inc_high (Timer edx eax : Nat) (h0 : Timer ≠ 0)
    (hlt : Timer + 100 < 2 ^ 64) :
    _setTimer Timer edx eax false = (Timer + 100, (Timer + 100) / 2 ^ 32) := by
  unfold _setTimer
  dsimp only
  rw [if_neg h0, Nat.mod_eq_of_lt hlt]
  show (Timer + 100, (Timer + 100) >>> 32) = (Timer + 100, (Timer + 100) / 2 ^ 32)
  rw [Nat.shiftRight_eq_div_pow]

/-- A `_setTimer` call for EAX with a nonzero, non-overflowing counter
adds exactly 100 and returns the low half. -/
theorem setTimer_inc_low (Timer edx eax : Nat) (h0 : Timer ≠ 0)
    (hlt : Timer + 100 < 2 ^ 64) :
    _setTimer Timer edx eax true = (Timer + 100, (Timer + 100) % 2 ^ 32) := by
  unfold _setTimer
  dsimp only
  rw [if_neg h0, Nat.mod_eq_of_lt hlt]
  show (Timer + 100, (((Timer + 100) <<< 32) % 2 ^ 64) >>> 32) =
    (Timer + 100, (Timer + 100) % 2 ^ 32)
  rw [low32_eq]

/-- Counterexample to C6 as stated: with the counter unseeded and the
real register pair reading (edx, eax) = (0, 5), the first spoofed rdtsc
leaves the virtual counter at 105 (not at the seed value 5), and the
second leaves it at 305 — consecutive reads differ by 200, not 100,
because each rdtsc runs `_setTimer` once for EDX and once for EAX against
the shared counter. -/
theorem claim_C6_counterexample :
    (spoofedRdtsc 0 0 5).1 = 105 ∧
    (spoofedRdtsc (spoofedRdtsc 0 0 5).1 0 5).1 = 305 ∧
    305 - 105 ≠ 100 := by decide

/-- Claim C6 (amended): each rdtsc performs two counter updates (EDX
call, then EAX call).  An update seeds the counter from the captured
register pair only when the counter is zero; otherwise it adds exactly
100 mod 2^64.  Hence, for a nonzero non-overflowing counter, one rdtsc
advances the counter by exactly 200, delivers the high half of
counter+100 through EDX and the low half of counter+200 through EAX, and
two consecutive rdtsc reads differ by exactly 200; a zero counter with a
nonzero observed pair is seeded by the EDX call and advanced 100 by the
EAX call. -/
theorem claim_C6 (Timer edx eax : Nat) (h0 : Timer ≠ 0)
    (hlt : Timer + 400 < 2 ^ 64) :
    (spoofedRdtsc Timer edx eax).1 = Timer + 200 ∧
    (spoofedRdtsc Timer edx eax).2.1 = (Timer + 100) / 2 ^ 32 ∧
    (spoofedRdtsc Timer edx eax).2.2 = (Timer + 200) % 2 ^ 32 ∧
    (spoofedRdtsc (spoofedRdtsc Timer edx eax).1 edx eax).1 =
      (spoofedRdtsc Timer edx eax).1 + 200 ∧
    (∀ edx2 eax2 : Nat, ((edx2 <<< 32) ||| eax2) % 2 ^ 64 ≠ 0 →
      (spoofedRdtsc 0 edx2 eax2).1 =
        (((edx2 <<< 32) ||| eax2) % 2 ^ 64 + 100) % 2 ^ 64) := by
  have hsum : Timer + 100 + 100 = Timer + 200 := by omega
  have hsum2 : Timer + 200 + 100 = Timer + 300 := by omega
  have hsum3 : Timer + 300 + 100 = Timer + 400 := by omega
  have h1 : _setTimer Timer edx eax false =
      (Timer + 100, (Timer + 100) / 2 ^ 32) :=
    setTimer_inc_high Timer edx eax h0 (by omega)
  have h2 : _setTimer (Timer + 100) edx eax true =
      (Timer + 200, (Timer + 200) % 2 ^ 32) := by
    rw [setTimer_inc_low (Timer + 100) edx eax (by omega) (by omega), hsum]
  have h3 : _setTimer (Timer + 200) edx eax false =
      (Timer + 300, (Timer + 300) / 2 ^ 32) := by
    rw [setTimer_inc_high (Timer + 200) edx eax (by omega) (by omega), hsum2]
  have h4 : _setTimer (Timer + 300) edx eax true =
      (Timer + 400, (Timer + 400) % 2 ^ 32) := by
    rw [setTimer_inc_low (Timer + 300) edx eax (by omega) (by omega), hsum3]
  have hfirst : spoofedRdtsc Timer edx eax =
      (Timer + 200, (Timer + 100) / 2 ^ 32, (Timer + 200) % 2 ^ 32) := by
    unfold spoofedRdtsc
    dsimp only
    rw [h1]
    dsimp only
    rw [h2]
  refine ⟨by rw [hfirst], by rw [hfirst], by rw [hfirst], ?_, ?_⟩
  · rw [hfirst]
    show (_setTimer (_setTimer (Timer + 200) edx eax false).1 edx eax true).1 =
      Timer + 200 + 200
    rw [h3]
    show (_setTimer (Timer + 300) edx eax true).1 = Timer + 200 + 200
    rw [h4, hsum3.symm]
  · intro edx2 eax2 hS
    have hseed : (_setTimer 0 edx2 eax2 false).1 =
        ((edx2 <<< 32) ||| eax2) % 2 ^ 64 := by
      unfold _setTimer
      dsimp only
      rw [if_pos rfl]
    show (_setTimer (_setTimer 0 edx2 eax2 false).1 edx2 eax2 true).1 = _
    rw [hseed]
    unfold _setTimer
    dsimp only
    rw [if_neg hS]

/-- Witness for C6 (amended) at a concrete seeded counter. -/
theorem claim_C6_witness :
    (spoofedRdtsc 5 0 0).1 = 205 ∧
    (spoofedRdtsc (spoofedRdtsc 5 0 0).1 0 0).1 = (spoofedRdtsc 5 0 0).1 + 200 :=
  ⟨(claim_C6 5 0 0 (by decide) (by decide)).1,
   (claim_C6 5 0 0 (by decide) (by decide)).2.2.2.1⟩

/-- Claim C7: the value classifier maps a captured argument: null to the
literal "0"; non-null unreadable to a bare hex scalar; readable with
leading printable run L1 > 1 to a quoted ASCII string; readable with
L1 = 1 and wide run L2 ≥ L1 to a quoted wide string; readable with
L1 = 0 to a pointer-to-unknown-structure marker in hex. -/
theorem claim_C7 (arg1 : ParamVal) :
    (arg1.value = 0 → paramToStr arg1 = "0") ∧
    (arg1.value ≠ 0 → arg1.readable = false →
      paramToStr arg1 = hexStr arg1.value) ∧
    (arg1.value ≠ 0 → arg1.readable = true →
      getAsciiLen arg1.bytes kMaxStr > 1 →
      paramToStr arg1 = "\"" ++ asciiString arg1.bytes ++ "\"") ∧
    (arg1.value ≠ 0 → arg1.readable = true →
      getAsciiLen arg1.bytes kMaxStr = 1 →
      getAsciiLenW arg1.bytes kMaxStr ≥ 1 →
      paramToStr arg1 = "L\"" ++ wideString arg1.bytes ++ "\"") ∧
    (arg1.value ≠ 0 → arg1.readable = true →
      getAsciiLen arg1.bytes kMaxStr = 0 →
      paramToStr arg1 = "ptr " ++ hexStr arg1.value) := by
  refine ⟨?_, ?_, ?_, ?_, ?_⟩
  · intro h
    simp [paramToStr, h]
  · intro h hr
    simp [paramToStr, h, hr]
  · intro h hr hl
    have h1 : ¬ getAsciiLen arg1.bytes kMaxStr = 1 := by omega
    simp [paramToStr, h, hr, h1, hl]
  · intro h hr h1 hw
    simp [paramToStr, h, hr, h1, hw]
  · intro h hr h0
    simp [paramToStr, h, hr, h0]

/-- Witness for C7: one concrete argument cell per classifier branch,
including the spec's `"C:\\a.txt"` and UTF-16 `"ab"` examples. -/
theorem claim_C7_witness :
    paramToStr ⟨0, false, []⟩ = "0" ∧
    paramToStr ⟨0xDEAD0000, false, []⟩ = hexStr 0xDEAD0000 ∧
    paramToStr ⟨0x1000, true, [67, 58, 92, 97, 46, 116, 120, 116, 0]⟩ =
      "\"" ++ asciiString [67, 58, 92, 97, 46, 116, 120, 116, 0] ++ "\"" ∧
    paramToStr ⟨0x2000, true, [0x61, 0, 0x62, 0, 0, 0]⟩ =
      "L\"" ++ wideString [0x61, 0, 0x62, 0, 0, 0] ++ "\"" ∧
    paramToStr ⟨0x3000, true, [0, 1, 2]⟩ = "ptr " ++ hexStr 0x3000 :=
  ⟨(claim_C7 ⟨0, false, []⟩).1 rfl,
   (claim_C7 ⟨0xDEAD0000, false, []⟩).2.1 (by decide) rfl,
   (claim_C7 ⟨0x1000, true, [67, 58, 92, 97, 46, 116, 120, 116, 0]⟩).2.2.1
     (by decide) rfl (by decide),
   (claim_C7 ⟨0x2000, true, [0x61, 0, 0x62, 0, 0, 0]⟩).2.2.2.1
     (by decide) rfl (by decide) (by decide),
   (claim_C7 ⟨0x3000, true, [0, 1, 2]⟩).2.2.2.2 (by decide) rfl (by decide)⟩

/-! ### Watch list (`FuncWatch.cpp`) -/

/-- Modelled from the spec: `util::iequals` (Util.h absent from src/):
ASCII-ordinal case-insensitive string equality. -/
def iequals (a b : String) : Bool :=
  a.toList.map Char.toLower == b.toList.map Char.toLower

/-- `WFuncInfo` (FuncWatch.h, declarations absent from src/). -/
structure WFuncInfo where
  dllName : String
  funcName : String
  paramCount : Nat
deriving DecidableEq, Repr

/-- Modelled from the spec: `WFuncInfo::isValid` (FuncWatch.h absent from
src/): an entry with an empty module or function name is invalid. -/
def WFuncInfo.isValid (w : WFuncInfo) : Bool :=
  decide (w.dllName ≠ "") && decide (w.funcName ≠ "")

/-- Field splitter core of `split_list` (FuncWatch.cpp:9-17), mirroring
repeated `std::getline(f, s, delimiter)`: a field per delimiter, the
delimiter consumed; at end of input the pending field is emitted, and a
delimiter at end of input yields no further (empty) field. -/
def split_list_go (delimiter : Char) : List Char → List Char → List String
  | [], acc => [String.mk acc.reverse]
  | c :: rest, acc =>
      if c = delimiter then
        String.mk acc.reverse ::
          (match rest with
           | [] => []
           | _ :: _ => split_list_go delimiter rest [])
      else split_list_go delimiter rest (c :: acc)

/-- `split_list` (FuncWatch.cpp:9-17): `getline` on an empty stream fails
at once, yielding no fields. -/
def split_list (sline : String) (delimiter : Char) : List String :=
  match sline.toList with
  | [] => []
  | c :: rest => split_list_go delimiter (c :: rest) []

/-- `isspace` of the C locale: space, \t, \n, \v, \f, \r. -/
def isSpaceC (c : Char) : Bool :=
  c = ' ' || c = Char.ofNat 9 || c = Char.ofNat 10 || c = Char.ofNat 11 ||
    c = Char.ofNat 12 || c = Char.ofNat 13

/-- The field as C++ stream extraction sees it: leading whitespace
skipped, then an optional single sign; returns (negative?, remaining
characters). -/
def extractBody (s : String) : Bool × List Char :=
  match s.toList.dropWhile (fun c => isSpaceC c) with
  | '-' :: rest => (true, rest)
  | '+' :: rest => (false, rest)
  | rest => (false, rest)

/-- `ss >> this->paramCount` (FuncWatch.cpp:27-31): C++ stream extraction
of a decimal integer — skip leading whitespace, accept an optional sign,
then read the run of decimal digits.  No digit at all means the
extraction fails and (C++11) zero is stored.  `paramCount`'s declared
width lives in the absent FuncWatch.h; the spec's "non-negative integer"
is taken as the 64-bit unsigned of the x64 target, so a negative field
wraps modulo 2^64 (as `strtoull` negates) and a too-large field stores
the maximum representable value. -/
def parseDec (s : String) : Nat :=
  let digits := (extractBody s).2.takeWhile (fun c => c.isDigit)
  let v := digits.foldl (fun acc c => acc * 10 + (c.toNat - 48)) 0
  if digits.isEmpty then 0
  else if v < 2 ^ 64 then
    if (extractBody s).1 then (2 ^ 64 - v) % 2 ^ 64 else v
  else 2 ^ 64 - 1

/-- `WFuncInfo::load` (FuncWatch.cpp:19-33): `none` when the line has
fewer than 3 delimited fields. -/
def WFuncInfo.load (sline : String) (delimiter : Char) : Option WFuncInfo :=
  let args := split_list sline delimiter
  if args.length < 3 then none
  else some ⟨args.getD 0 "", args.getD 1 "", parseDec (args.getD 2 "")⟩

/-- `WFuncInfo::update` (FuncWatch.cpp:35-43): widen `paramCount` if the
incoming entry has more. -/
def WFuncInfo.update (this_ : WFuncInfo) (func_info : WFuncInfo) : WFuncInfo :=
  if this_.paramCount < func_info.paramCount then
    { this_ with paramCount := func_info.paramCount }
  else this_

/-- `FuncWatchList::findFunc` (FuncWatch.cpp:47-59): index of the first
entry whose case-insensitive (module, function) key matches. -/
def findFunc (funcs : List WFuncInfo) (dllName funcName : String) : Option Nat :=
  funcs.findIdx? (fun info =>
    iequals info.dllName dllName && iequals info.funcName funcName)

/-- `FuncWatchList::appendFunc` (FuncWatch.cpp:61-74): reject invalid
entries; push a new key; update (widen) an existing key in place. -/
def appendFunc (funcs : List WFuncInfo) (func_info : WFuncInfo) :
    Bool × List WFuncInfo :=
  if !func_info.isValid then (false, funcs)
  else
    match findFunc funcs func_info.dllName func_info.funcName with
    | none => (true, funcs ++ [func_info])
    | some i => (true, funcs.set i ((funcs.getD i func_info).update func_info))

/-- Loop body of `FuncWatchList::loadList` (FuncWatch.cpp:85-92): load a
line, append on success, skip on failure. -/
def loadStep (fs : List WFuncInfo) (line : String) : List WFuncInfo :=
  match WFuncInfo.load line ';' with
  | some fi => (appendFunc fs fi).2
  | none => fs

/-- `FuncWatchList::loadList` (FuncWatch.cpp:76-94): `none` models an
unopenable file (return 0, registry untouched); otherwise fold the loop
body over the lines and return (entry count, final registry). -/
def loadList (file : Option (List String)) (funcs : List WFuncInfo) :
    Nat × List WFuncInfo :=
  match file with
  | none => (0, funcs)
  | some lines =>
      let final := lines.foldl loadStep funcs
      (final.length, final)

/-- Claim C8: appending an entry whose case-insensitive key already
exists never creates a second entry and widens the stored `paramCount` to
the maximum of old and new; in particular loading
`("k32.dll","CreateFileW",3)` and `("k32.dll","CreateFileW",7)` in either
order yields the single entry with `paramCount = 7`. -/
theorem claim_C8 (funcs : List WFuncInfo) (fi : WFuncInfo) (i : Nat)
    (hvalid : fi.isValid = true)
    (hfind : findFunc funcs fi.dllName fi.funcName = some i) :
    ((appendFunc funcs fi).2.length = funcs.length ∧
     (appendFunc funcs fi).2 = funcs.set i
       { funcs.getD i fi with
          paramCount := max (funcs.getD i fi).paramCount fi.paramCount }) ∧
    (appendFunc (appendFunc [] (⟨"k32.dll", "CreateFileW", 3⟩ : WFuncInfo)).2
      ⟨"k32.dll", "CreateFileW", 7⟩).2 =
        [(⟨"k32.dll", "CreateFileW", 7⟩ : WFuncInfo)] ∧
    (appendFunc (appendFunc [] (⟨"k32.dll", "CreateFileW", 7⟩ : WFuncInfo)).2
      ⟨"k32.dll", "CreateFileW", 3⟩).2 =
        [(⟨"k32.dll", "CreateFileW", 7⟩ : WFuncInfo)] := by
  refine ⟨⟨?_, ?_⟩, by decide, by decide⟩
  · simp [appendFunc, hvalid, hfind]
  · have hmax : (funcs.getD i fi).update fi =
        { funcs.getD i fi with
           paramCount := max (funcs.getD i fi).paramCount fi.paramCount } := by
      unfold WFuncInfo.update
      by_cases h : (funcs.getD i fi).paramCount < fi.paramCount
      · rw [if_pos h]
        have : max (funcs.getD i fi).paramCount fi.paramCount = fi.paramCount := by
          omega
        rw [this]
      · rw [if_neg h]
        have : max (funcs.getD i fi).paramCount fi.paramCount =
            (funcs.getD i fi).paramCount := by omega
        rw [this]
    rw [← hmax]
    simp [appendFunc, hvalid, hfind]

/-- Witness for C8 at the concrete duplicate-key append. -/
theorem claim_C8_witness :
    (appendFunc [(⟨"k32.dll", "CreateFileW", 3⟩ : WFuncInfo)]
      ⟨"k32.dll", "CreateFileW", 7⟩).2.length = 1 ∧
    (appendFunc [(⟨"k32.dll", "CreateFileW", 3⟩ : WFuncInfo)]
      ⟨"k32.dll", "CreateFileW", 7⟩).2 =
        [(⟨"k32.dll", "CreateFileW", 7⟩ : WFuncInfo)] := by
  have h := claim_C8 [(⟨"k32.dll", "CreateFileW", 3⟩ : WFuncInfo)]
    ⟨"k32.dll", "CreateFileW", 7⟩ 0 (by decide) (by decide)
  exact ⟨h.1.1, by rw [h.1.2]; decide⟩

/-- Claim C9: an unopenable watch-list file loads zero entries and leaves
the registry unchanged; a line with fewer than 3 fields is skipped
without affecting the other lines; a `paramCount` field whose extraction
finds no digit (after whitespace and an optional sign) parses to zero
instead of failing — while a whitespace-prefixed numeric field such as
`" 7"` still parses to its value, as stream extraction skips leading
whitespace. -/
theorem claim_C9 (funcs : List WFuncInfo) (pre post : List String)
    (line : String) (hlen : (split_list line ';').length < 3) :
    loadList none funcs = (0, funcs) ∧
    loadList (some (pre ++ line :: post)) funcs =
      loadList (some (pre ++ post)) funcs ∧
    (∀ l d f c rest, split_list l ';' = d :: f :: c :: rest →
      ((extractBody c).2.takeWhile (fun ch => ch.isDigit)).isEmpty = true →
      WFuncInfo.load l ';' = some ⟨d, f, 0⟩) ∧
    WFuncInfo.load "k32.dll;CreateFileW; 7" ';' =
      some ⟨"k32.dll", "CreateFileW", 7⟩ := by
  refine ⟨rfl, ?_, ?_, by decide⟩
  · have hnone : WFuncInfo.load line ';' = none := by
      unfold WFuncInfo.load
      dsimp only
      rw [if_pos hlen]
    have hstep : ∀ fs, loadStep fs line = fs := by
      intro fs
      unfold loadStep
      rw [hnone]
    have hfold : (pre ++ line :: post).foldl loadStep funcs =
        (pre ++ post).foldl loadStep funcs := by
      rw [List.foldl_append, List.foldl_append, List.foldl_cons, hstep]
    unfold loadList
    dsimp only
    rw [hfold]
  · intro l d f c rest hsplit hfail
    have hzero : parseDec c = 0 := by
      unfold parseDec
      dsimp only
      rw [if_pos hfail]
    unfold WFuncInfo.load
    dsimp only
    rw [hsplit]
    have hlen3 : ¬ (d :: f :: c :: rest).length < 3 := by
      simp only [List.length_cons]
      omega
    rw [if_neg hlen3]
    simp [hzero]

/-- Witness for C9: a malformed middle line is dropped without affecting
the well-formed line, and a count field with no digit parses to zero. -/
theorem claim_C9_witness :
    loadList (some ["k32.dll;CreateFileW;3", "garbage"]) [] =
      loadList (some ["k32.dll;CreateFileW;3"]) [] ∧
    WFuncInfo.load "a;b;xyz" ';' = some ⟨"a", "b", 0⟩ :=
  ⟨(claim_C9 [] ["k32.dll;CreateFileW;3"] [] "garbage" (by decide)).2.1,
   (claim_C9 [] [] [] "garbage" (by decide)).2.2.1 "a;b;xyz" "a" "b" "xyz" []
     (by decide) (by decide)⟩

/-! ### Shellcode-follow option conversion -/

/-- `t_shellc_options` (TinyTracer.cpp:27-32), as the underlying C enum
values. -/
def SHELLC_DO_NOT_FOLLOW : Int := 0

/-- `SHELLC_FOLLOW_FIRST` enumerator. -/
def SHELLC_FOLLOW_FIRST : Int := 1

/-- `SHELLC_FOLLOW_RECURSIVE` enumerator. -/
def SHELLC_FOLLOW_RECURSIVE : Int := 2

/-- `SHELLC_OPTIONS_COUNT` enumerator (value 3). -/
def SHELLC_OPTIONS_COUNT : Int := 3

/-- `ConvertShcOption` (TinyTracer.cpp:88-94). -/
def ConvertShcOption (value : Int) : Int :=
  if value ≥ SHELLC_OPTIONS_COUNT then SHELLC_FOLLOW_RECURSIVE
  else value

/-- Claim C10: every configuration value ≥ 3 converts to
`SHELLC_FOLLOW_RECURSIVE`, while 0, 1, 2 convert to themselves — an
out-of-range follow-mode flag silently enables recursive following. -/
theorem claim_C10 (value : Int) (h : value ≥ 3) :
    ConvertShcOption value = SHELLC_FOLLOW_RECURSIVE ∧
    ConvertShcOption 0 = SHELLC_DO_NOT_FOLLOW ∧
    ConvertShcOption 1 = SHELLC_FOLLOW_FIRST ∧
    ConvertShcOption 2 = SHELLC_FOLLOW_RECURSIVE := by
  refine ⟨?_, by decide, by decide, by decide⟩
  simp [ConvertShcOption, SHELLC_OPTIONS_COUNT, h]

/-- Witness for C10 at the out-of-range value 7. -/
theorem claim_C10_witness :
    ConvertShcOption 7 = SHELLC_FOLLOW_RECURSIVE ∧
    ConvertShcOption 0 = SHELLC_DO_NOT_FOLLOW ∧
    ConvertShcOption 1 = SHELLC_FOLLOW_FIRST ∧
    ConvertShcOption 2 = SHELLC_FOLLOW_RECURSIVE :=
  claim_C10 7 (by decide)

end TinyTracer
